import Mathlib

/-!
Verification of the audit-log export pipeline of `scripts/export_audit_logs.py`
(CloudGov_AuditLogs).

The development shallowly embeds the pipeline:
* Python dictionary values (the JSON event objects of the `resources` list)
  are embedded as `PyVal`; fallible dictionary access (`event['type']`,
  `event.get('space', {})`) is embedded in the `Except PyErr` monad so that
  "raises" is observable as `.error`.
* `get_audit_logs`'s normalization loop (lines 79-94 of the script) is
  `normalize_event` / `normalize_events`.
* `process_audit_logs`'s security checks and summary construction
  (lines 112-153) are `process_audit_logs_records` over the in-memory list of
  normalized rows; the three pandas `str.contains` filters (case-insensitive
  substring on the `type` column) are `classify_count` over `Tag`.
* The orchestration of `main` / `get_audit_logs` — what is written to the
  sink, and that a failed fetch aborts — is `main_run` over an abstract
  `FetchOutcome`, recording sink writes in order.
-/

/-! ## Embedded Python values and fallible dictionary access -/

/-- A Python value as used by the script: the JSON event objects are
nested string/dict structures. -/
inductive PyVal where
  | str (s : String)
  | dict (entries : List (String × PyVal))

/-- Errors Python raises on the accesses the script performs:
`KeyError` for `d[k]` with a missing key, a type/attribute error for
subscripting or calling `.get` on a non-dict. -/
inductive PyErr where
  | keyError (k : String)
  | typeError
deriving DecidableEq, Repr

/-- First-match lookup in a Python dict modelled as an association list. -/
def dictLookup : List (String × PyVal) → String → Option PyVal
  | [], _ => none
  | (k, v) :: rest, key => if k = key then some v else dictLookup rest key

/-- `v[k]`: raises `KeyError` when the key is absent, a type error when `v`
is not a dict. -/
def getItem (v : PyVal) (k : String) : Except PyErr PyVal :=
  match v with
  | .dict d =>
    match dictLookup d k with
    | some x => .ok x
    | none => .error (.keyError k)
  | _ => .error .typeError

/-- `v.get(k, dflt)`: returns `dflt` when the key is absent, raises when `v`
is not a dict. -/
def pyGet (v : PyVal) (k : String) (dflt : PyVal) : Except PyErr PyVal :=
  match v with
  | .dict d => .ok ((dictLookup d k).getD dflt)
  | _ => .error .typeError

/-- Extract the string payload of a value; the script's DataFrame columns are
consumed as strings by `str.contains`, so a non-string leaf is modelled as a
type error at extraction. The theorems only use this through
`wfStructured`, under which every accessed leaf is a string. -/
def asStr : PyVal → Except PyErr String
  | .str s => .ok s
  | _ => .error .typeError

/-! ## Normalized records (the CSV rows / DataFrame rows) -/

/-- One normalized row, with the script's column names
(`event_dict` keys at lines 81-90, which become the DataFrame columns). -/
structure Row where
  type : String
  created_at : String
  target_name : String
  target_type : String
  actor_name : String
  actor_type : String
  space_name : String
  org_name : String
deriving DecidableEq, Repr

/-- `get_audit_logs`'s per-event normalization (lines 81-90):

```
'type': event['type'],
'created_at': event['created_at'],
'target_name': event['target'].get('name', ''),
'target_type': event['target'].get('type', ''),
'actor_name': event['actor'].get('name', ''),
'actor_type': event['actor'].get('type', ''),
'space_name': event.get('space', {}).get('name', ''),
'org_name': event.get('organization', {}).get('name', '')
```
-/
def normalize_event (event : PyVal) : Except PyErr Row := do
  let t ← asStr (← getItem event "type")
  let c ← asStr (← getItem event "created_at")
  let tgt ← getItem event "target"
  let tn ← asStr (← pyGet tgt "name" (.str ""))
  let tt ← asStr (← pyGet tgt "type" (.str ""))
  let act ← getItem event "actor"
  let an ← asStr (← pyGet act "name" (.str ""))
  let aty ← asStr (← pyGet act "type" (.str ""))
  let sp ← pyGet event "space" (.dict [])
  let sn ← asStr (← pyGet sp "name" (.str ""))
  let og ← pyGet event "organization" (.dict [])
  let ogn ← asStr (← pyGet og "name" (.str ""))
  return ⟨t, c, tn, tt, an, aty, sn, ogn⟩

/-- The loop `for event in events_data['resources']: ... events_list.append(...)`
(lines 80-91): one appended row per event, stopping at the first raised error. -/
def normalize_events : List PyVal → Except PyErr (List Row)
  | [] => .ok []
  | e :: rest => do
    let r ← normalize_event e
    let rs ← normalize_events rest
    return r :: rs

/-! ## Well-formed structured raw events (the spec's Structured `RawEvent`) -/

/-- The option holds a string value. -/
def isStrV : Option PyVal → Bool
  | some (.str _) => true
  | _ => false

/-- The option is absent or holds a string value. -/
def isStrOrAbsent : Option PyVal → Bool
  | none => true
  | some (.str _) => true
  | _ => false

/-- The value is a dict whose entries at `keys`, when present, are strings. -/
def wfMappingAt (v : PyVal) (keys : List String) : Bool :=
  match v with
  | .dict d => keys.all fun k => isStrOrAbsent (dictLookup d k)
  | _ => false

/-- Absent, or a well-formed mapping at `keys`. -/
def wfOptMapping (o : Option PyVal) (keys : List String) : Bool :=
  match o with
  | none => true
  | some v => wfMappingAt v keys

/-- Present and a well-formed mapping at `keys`. -/
def wfReqMapping (o : Option PyVal) (keys : List String) : Bool :=
  match o with
  | none => false
  | some v => wfMappingAt v keys

/-- The spec's Structured `RawEvent` variant: a mapping with string `type`
and `created_at`, mappings `target` and `actor` (whose `name`/`type`,
when present, are strings), and optional `space`/`organization` mappings
(whose `name`, when present, is a string). -/
def wfStructured (event : PyVal) : Bool :=
  match event with
  | .dict d =>
    isStrV (dictLookup d "type") &&
    isStrV (dictLookup d "created_at") &&
    wfReqMapping (dictLookup d "target") ["name", "type"] &&
    wfReqMapping (dictLookup d "actor") ["name", "type"] &&
    wfOptMapping (dictLookup d "space") ["name"] &&
    wfOptMapping (dictLookup d "organization") ["name"]
  | _ => false

/-- The string held at an optional key, empty when absent (the `.get(k, '')`
result under well-formedness). -/
def strOrEmpty : Option PyVal → String
  | some (.str s) => s
  | _ => ""

/-- The `name` of an optional nested mapping, empty when the mapping or its
`name` is absent (the `event.get(k, {}).get('name', '')` result under
well-formedness). -/
def optMappingName : Option PyVal → String
  | some (.dict sd) => strOrEmpty (dictLookup sd "name")
  | _ => ""

/-! ## Classifier (the three `str.contains` security checks) -/

/-- `pat` occurs at the start of `l`. -/
def leadsWith : List Char → List Char → Bool
  | [], _ => true
  | _ :: _, [] => false
  | a :: as, b :: bs => a == b && leadsWith as bs

/-- `pat` occurs as a contiguous run somewhere in `l`. -/
def containsSeq (pat : List Char) : List Char → Bool
  | [] => leadsWith pat []
  | c :: rest => leadsWith pat (c :: rest) || containsSeq pat rest

/-- Case-insensitive substring test: pandas `Series.str.contains(pat, case=False)`
on plain (regex-metacharacter-free) patterns. -/
def containsCI (s pat : String) : Bool :=
  containsSeq (pat.toList.map Char.toLower) (s.toList.map Char.toLower)

/-- Case-sensitive substring test: pandas `Series.str.contains(pat)` with the
default `case=True`, on plain patterns. -/
def containsCS (s pat : String) : Bool :=
  containsSeq pat.toList s.toList

/-- The three security categories of `process_audit_logs`
(spec: `ClassificationTag`). -/
inductive Tag where
  | FailedLogin
  | UnauthorizedAccess
  | SuspiciousActivity
deriving DecidableEq, Repr

/-- Whether a row matches a category: the script's
`df['type'].str.contains(..., na=False, case=False)` conditions
(lines 133-143). -/
def matchesTag : Tag → Row → Bool
  | .FailedLogin, r => containsCI r.type "LoginFailure"
  | .UnauthorizedAccess, r => containsCI r.type "Unauthorized"
  | .SuspiciousActivity, r =>
    containsCI r.type "Delete" || containsCI r.type "Update" ||
      containsCI r.type "Create"

/-- `len(df[df['type'].str.contains(...)])`: the number of rows matching a
category (lines 133-151). -/
def classify_count (t : Tag) (df : List Row) : Nat :=
  (df.filter (matchesTag t)).length

/-! ## Summary builder (`process_audit_logs`, lines 119-153) -/

/-- The one-row processed report (spec: `SummaryRecord`), with the script's
column names. -/
structure Summary where
  date : String
  total_events : Nat
  failed_logins : Nat
  unauthorized_access : Nat
  suspicious_activities : Nat
  status : String
deriving DecidableEq, Repr

/-- The all-zero report of the empty branch (lines 122-129). -/
def noEventsSummary (today : String) : Summary :=
  ⟨today, 0, 0, 0, 0, "No events found in the specified time range"⟩

/-- `df.iloc[0].str.contains('No events found').any()`: some column of the
row contains the sentinel text (case-sensitive). -/
def rowContainsNoEvents (r : Row) : Bool :=
  containsCS r.type "No events found" ||
  containsCS r.created_at "No events found" ||
  containsCS r.target_name "No events found" ||
  containsCS r.target_type "No events found" ||
  containsCS r.actor_name "No events found" ||
  containsCS r.actor_type "No events found" ||
  containsCS r.space_name "No events found" ||
  containsCS r.org_name "No events found"

/-- A default row, standing for the unreachable `iloc[0]` of an empty frame
(guarded by the short-circuit `len(df) == 1 and ...`). -/
def defaultRow : Row := ⟨"", "", "", "", "", "", "", ""⟩

/-- `process_audit_logs` on the in-memory rows (lines 119-153):

```
if df.empty or (len(df) == 1 and df.iloc[0].str.contains('No events found').any()):
    processed_df = ... all zeros ... 'No events found in the specified time range'
else:
    ... counts ... 'Events found and processed'
```
-/
def process_audit_logs_records (df : List Row) (today : String) : Summary :=
  if df.isEmpty || (df.length == 1 && rowContainsNoEvents (df.headD defaultRow)) then
    noEventsSummary today
  else
    ⟨today, df.length,
      classify_count .FailedLogin df,
      classify_count .UnauthorizedAccess df,
      classify_count .SuspiciousActivity df,
      "Events found and processed"⟩

/-! ## Orchestration (`main`, `get_audit_logs`, lines 51-110 and 165-183)

The external fetch (`cf curl` plus `json.loads`) is a black-box event source;
its four observationally distinct outcomes at the script's branch points are
`FetchOutcome`. What the script emits is recorded as an ordered list of
`SinkWrite`s: the `sep=,` Excel header is written before the fetch is even
attempted, the normalized rows (or the `No events found` sentinel line) after
a successful fetch, and the processed summary by `process_audit_logs`.
-/

/-- The observationally distinct outcomes of the fetch-and-parse step:
`cf curl` fails (`subprocess.CalledProcessError`, line 105), its output is
not JSON (`json.JSONDecodeError`, line 99), the JSON has no `resources` key
(line 96), or it has a `resources` list of event objects (line 77). -/
inductive FetchOutcome where
  | fail (msg : String)
  | badJson (msg : String)
  | noResources
  | resources (events : List PyVal)

/-- One write to the sink, in program order. -/
inductive SinkWrite where
  | sepHeader
  | noEventsLine
  | normalizedWrite (rs : List Row)
  | summaryWrite (s : Summary)
deriving DecidableEq, Repr

/-- What the events file holds after a successful `get_audit_logs`: either the
`No events found` sentinel or the normalized rows. -/
inductive FileContent where
  | noEvents
  | data (rs : List Row)
deriving DecidableEq, Repr

/-- `get_audit_logs` (lines 51-110): writes `sep=,`, fetches, then either
writes the normalized rows, writes the sentinel line, or raises
(`RuntimeError` for a failed fetch or bad JSON, the uncaught normalization
error otherwise). The writes made before the raise are kept — the file is
already open and written. -/
def get_audit_logs : FetchOutcome → List SinkWrite × Except String FileContent
  | .fail msg => ([.sepHeader], .error ("Failed to fetch audit logs: " ++ msg))
  | .badJson msg => ([.sepHeader], .error ("Failed to parse JSON response: " ++ msg))
  | .noResources => ([.sepHeader, .noEventsLine], .ok .noEvents)
  | .resources events =>
    match normalize_events events with
    | .error _ => ([.sepHeader], .error "normalization raised")
    | .ok rs => ([.sepHeader, .normalizedWrite rs], .ok (.data rs))

/-- `process_audit_logs` on the file handed over by `get_audit_logs`: the
sentinel file trips the `No events found` guard (its single row contains the
sentinel text), a data file goes through the security checks. -/
def process_file : FileContent → String → Summary
  | .noEvents, today => noEventsSummary today
  | .data rs, today => process_audit_logs_records rs today

/-- `main` (lines 165-183): run `get_audit_logs`, then `process_audit_logs`,
which writes the summary file; any raised error aborts the run
(`sys.exit(1)`) with the writes made so far. -/
def main_run (o : FetchOutcome) (today : String) :
    List SinkWrite × Except String Summary :=
  match get_audit_logs o with
  | (w, .error e) => (w, .error ("Error in main execution: " ++ e))
  | (w, .ok fc) =>
    let s := process_file fc today
    (w ++ [.summaryWrite s], .ok s)

/-! ## Unstructured (delimited-text) fallback normalizer

Modelled from the spec: the delimited-text fallback Normalizer (spec §4.1) is
not part of the script variant under `src/` (that variant has no per-line
fallback parser). Per the spec, each line is parsed into the fixed eight-column
field set in the pre-agreed column order; a line with the wrong column count is
dropped and the drop counted for diagnostics, without aborting the run.
-/

/-- Split a character list at every comma (the delimiter of the text export);
`n` commas yield `n + 1` fields. -/
def splitFields : List Char → List (List Char)
  | [] => [[]]
  | c :: rest =>
    let fs := splitFields rest
    if c = ',' then [] :: fs
    else
      match fs with
      | [] => [[c]]
      | f :: more => (c :: f) :: more

/-- Modelled from the spec: parse one delimited line into the fixed field set
using the pre-agreed column order; `none` when the column count is wrong. -/
def parseLine (line : String) : Option Row :=
  match (splitFields line.toList).map (fun f => String.mk f) with
  | [a, b, c, d, e, f, g, h] => some ⟨a, b, c, d, e, f, g, h⟩
  | _ => none

/-- Modelled from the spec: the unstructured fallback `normalize` — the
parsed rows in order, paired with the count of dropped malformed lines.
Total: a malformed line never aborts the run. -/
def normalize_unstructured : List String → List Row × Nat
  | [] => ([], 0)
  | l :: rest =>
    let p := normalize_unstructured rest
    match parseLine l with
    | some r => (r :: p.1, p.2)
    | none => (p.1, p.2 + 1)

/-! ## Concrete sample data used by the witness theorems -/

/-- A normalized row whose event type is Scenario C's
`audit.space.UnauthorizedDelete`. -/
def rowUnauthorizedDelete : Row :=
  ⟨"audit.space.UnauthorizedDelete", "2026-10-01T00:00:00Z", "myapp", "app",
    "alice", "user", "dev", "agency"⟩

/-- A normalized row whose event type is Scenario A's `audit.app.LoginFailure`. -/
def rowLoginFailure : Row :=
  ⟨"audit.app.LoginFailure", "2026-10-01T00:00:00Z", "myapp", "app",
    "alice", "user", "dev", "agency"⟩

/-- A normalized row whose event type contains the sentinel text
`No events found`. -/
def rowSentinel : Row :=
  ⟨"No events found", "", "", "", "", "", "", ""⟩

/-- A normalized row whose event type contains two suspicious-activity
indicators, `Delete` and `Create`. -/
def rowDeleteCreate : Row :=
  ⟨"audit.app.DeleteCreate", "2026-10-01T00:00:00Z", "myapp", "app",
    "alice", "user", "dev", "agency"⟩

/-- The entries of a structured raw event with every optional nested key
absent: empty `target`, an `actor` with only a name, no `space`, no
`organization`. -/
def eventSparseEntries : List (String × PyVal) :=
  [("type", .str "audit.app.LoginFailure"),
   ("created_at", .str "2026-10-01T00:00:00Z"),
   ("target", .dict []),
   ("actor", .dict [("name", .str "alice")])]

/-- The sparse structured raw event itself. -/
def eventSparse : PyVal := .dict eventSparseEntries

/-- A fully populated structured raw event. -/
def eventFull : PyVal :=
  .dict [("type", .str "audit.space.UnauthorizedDelete"),
         ("created_at", .str "2026-10-02T00:00:00Z"),
         ("target", .dict [("name", .str "myapp"), ("type", .str "app")]),
         ("actor", .dict [("name", .str "alice"), ("type", .str "user")]),
         ("space", .dict [("name", .str "dev")]),
         ("organization", .dict [("name", .str "agency")])]

/-- Scenario D's input: nine well-formed eight-column lines with one
malformed line among them. -/
def sampleLines : List String :=
  ["e1,c1,tn,tt,an,at,sn,on",
   "e2,c2,tn,tt,an,at,sn,on",
   "e3,c3,tn,tt,an,at,sn,on",
   "e4,c4,tn,tt,an,at,sn,on",
   "this line is malformed",
   "e5,c5,tn,tt,an,at,sn,on",
   "e6,c6,tn,tt,an,at,sn,on",
   "e7,c7,tn,tt,an,at,sn,on",
   "e8,c8,tn,tt,an,at,sn,on",
   "e9,c9,tn,tt,an,at,sn,on"]

/-! ## Helper lemmas -/

theorem exBind_ok {α β : Type} (a : α) (f : α → Except PyErr β) :
    (Except.ok a >>= f) = f a := rfl

theorem exBind_err {α β : Type} (e : PyErr) (f : α → Except PyErr β) :
    ((Except.error e : Except PyErr α) >>= f) = Except.error e := rfl

theorem exPure {α : Type} (a : α) : (pure a : Except PyErr α) = Except.ok a := rfl

theorem isStrV_shape (o : Option PyVal) (h : isStrV o = true) :
    ∃ s, o = some (.str s) := by
  cases o with
  | none => simp [isStrV] at h
  | some v =>
    cases v with
    | str s => exact ⟨s, rfl⟩
    | dict d => simp [isStrV] at h

theorem isStrOrAbsent_shape (o : Option PyVal) (h : isStrOrAbsent o = true) :
    o = none ∨ ∃ s, o = some (.str s) := by
  cases o with
  | none => exact Or.inl rfl
  | some v =>
    cases v with
    | str s => exact Or.inr ⟨s, rfl⟩
    | dict d => simp [isStrOrAbsent] at h

theorem asStr_getD (o : Option PyVal) (h : isStrOrAbsent o = true) :
    asStr (o.getD (.str "")) = .ok (strOrEmpty o) := by
  rcases isStrOrAbsent_shape o h with h1 | ⟨s, h1⟩ <;> subst h1 <;> rfl

theorem wfReqMapping_shape (o : Option PyVal)
    (h : wfReqMapping o ["name", "type"] = true) :
    ∃ td, o = some (.dict td) ∧ isStrOrAbsent (dictLookup td "name") = true ∧
      isStrOrAbsent (dictLookup td "type") = true := by
  cases o with
  | none => simp [wfReqMapping] at h
  | some v =>
    cases v with
    | str s => simp [wfReqMapping, wfMappingAt] at h
    | dict td =>
      simp [wfReqMapping, wfMappingAt] at h
      exact ⟨td, rfl, h.1, h.2⟩

theorem wfOptMapping_shape (o : Option PyVal) (h : wfOptMapping o ["name"] = true) :
    o = none ∨ ∃ sd, o = some (.dict sd) ∧
      isStrOrAbsent (dictLookup sd "name") = true := by
  cases o with
  | none => exact Or.inl rfl
  | some v =>
    cases v with
    | str s => simp [wfOptMapping, wfMappingAt] at h
    | dict sd =>
      simp [wfOptMapping, wfMappingAt] at h
      exact Or.inr ⟨sd, rfl, h⟩

theorem normalize_event_wf (d : List (String × PyVal))
    (h : wfStructured (.dict d) = true) :
    ∃ ts cs td ad,
      dictLookup d "type" = some (.str ts) ∧
      dictLookup d "created_at" = some (.str cs) ∧
      dictLookup d "target" = some (.dict td) ∧
      dictLookup d "actor" = some (.dict ad) ∧
      normalize_event (.dict d) = .ok
        ⟨ts, cs, strOrEmpty (dictLookup td "name"), strOrEmpty (dictLookup td "type"),
         strOrEmpty (dictLookup ad "name"), strOrEmpty (dictLookup ad "type"),
         optMappingName (dictLookup d "space"),
         optMappingName (dictLookup d "organization")⟩ := by
  unfold wfStructured at h
  simp only [Bool.and_eq_true] at h
  obtain ⟨⟨⟨⟨⟨hty, hca⟩, htgt⟩, hact⟩, hsp⟩, hog⟩ := h
  obtain ⟨ts, hty⟩ := isStrV_shape _ hty
  obtain ⟨cs, hca⟩ := isStrV_shape _ hca
  obtain ⟨td, htgt, htn, htt⟩ := wfReqMapping_shape _ htgt
  obtain ⟨ad, hact, han, hat⟩ := wfReqMapping_shape _ hact
  refine ⟨ts, cs, td, ad, hty, hca, htgt, hact, ?_⟩
  have hstr : ∀ s : String, asStr (.str s) = .ok s := fun _ => rfl
  rcases wfOptMapping_shape _ hsp with hsp1 | ⟨sd, hsp1, hsn⟩ <;>
    rcases wfOptMapping_shape _ hog with hog1 | ⟨od, hog1, hon⟩
  · simp [normalize_event, getItem, pyGet, hty, hca, htgt, hact, hsp1, hog1,
      exBind_ok, exPure, asStr_getD _ htn, asStr_getD _ htt, asStr_getD _ han,
      asStr_getD _ hat, optMappingName, dictLookup, hstr]
  · simp [normalize_event, getItem, pyGet, hty, hca, htgt, hact, hsp1, hog1,
      exBind_ok, exPure, asStr_getD _ htn, asStr_getD _ htt, asStr_getD _ han,
      asStr_getD _ hat, asStr_getD _ hon, optMappingName, dictLookup, hstr]
  · simp [normalize_event, getItem, pyGet, hty, hca, htgt, hact, hsp1, hog1,
      exBind_ok, exPure, asStr_getD _ htn, asStr_getD _ htt, asStr_getD _ han,
      asStr_getD _ hat, asStr_getD _ hsn, optMappingName, dictLookup, hstr]
  · simp [normalize_event, getItem, pyGet, hty, hca, htgt, hact, hsp1, hog1,
      exBind_ok, exPure, asStr_getD _ htn, asStr_getD _ htt, asStr_getD _ han,
      asStr_getD _ hat, asStr_getD _ hsn, asStr_getD _ hon, optMappingName,
      dictLookup, hstr]

theorem normalize_event_total (e : PyVal) (h : wfStructured e = true) :
    ∃ r, normalize_event e = .ok r := by
  cases e with
  | str s => simp [wfStructured] at h
  | dict d =>
    obtain ⟨ts, cs, td, ad, _, _, _, _, heq⟩ := normalize_event_wf d h
    exact ⟨_, heq⟩

theorem normalize_events_length (events : List PyVal)
    (h : ∀ e ∈ events, wfStructured e = true) :
    ∃ rs, normalize_events events = .ok rs ∧ rs.length = events.length := by
  induction events with
  | nil => exact ⟨[], rfl, rfl⟩
  | cons e rest ih =>
    obtain ⟨r, hr⟩ := normalize_event_total e (h e (by simp))
    obtain ⟨rs, hrs, hlen⟩ := ih fun x hx => h x (by simp [hx])
    refine ⟨r :: rs, ?_, by simp [hlen]⟩
    simp [normalize_events, hr, hrs, exBind_ok, exPure]

theorem classify_count_nil (t : Tag) : classify_count t [] = 0 := rfl

theorem classify_count_cons (t : Tag) (r : Row) (df : List Row) :
    classify_count t (r :: df) =
      classify_count t df + (if matchesTag t r then 1 else 0) := by
  unfold classify_count
  rw [List.filter_cons]
  split <;> simp

theorem classify_count_append (t : Tag) (l1 l2 : List Row) :
    classify_count t (l1 ++ l2) = classify_count t l1 + classify_count t l2 := by
  simp [classify_count, List.filter_append]

theorem classify_count_insert (t : Tag) (l1 l2 : List Row) (r : Row) :
    classify_count t (l1 ++ r :: l2) =
      classify_count t (l1 ++ l2) + (if matchesTag t r then 1 else 0) := by
  rw [classify_count_append, classify_count_append, classify_count_cons]
  omega

theorem classify_count_perm (t : Tag) {l1 l2 : List Row} (h : l1.Perm l2) :
    classify_count t l1 = classify_count t l2 :=
  (h.filter (matchesTag t)).length_eq

theorem process_empty (today : String) :
    process_audit_logs_records [] today = noEventsSummary today := rfl

theorem process_nonempty (df : List Row) (today : String)
    (h : 2 ≤ df.length ∨ ∃ r, df = [r] ∧ rowContainsNoEvents r = false) :
    process_audit_logs_records df today =
      ⟨today, df.length,
        classify_count .FailedLogin df,
        classify_count .UnauthorizedAccess df,
        classify_count .SuspiciousActivity df,
        "Events found and processed"⟩ := by
  unfold process_audit_logs_records
  rcases h with h | ⟨r, rfl, hr⟩
  · have h1 : df.isEmpty = false := by
      cases df with
      | nil => simp at h
      | cons a l => rfl
    have h2 : (df.length == 1) = false := by
      simp only [beq_eq_false_iff_ne, ne_eq]
      omega
    simp [h1, h2]
  · simp [hr]

theorem process_sentinel (r : Row) (today : String)
    (h : rowContainsNoEvents r = true) :
    process_audit_logs_records [r] today = noEventsSummary today := by
  simp [process_audit_logs_records, h]

theorem normalize_unstructured_eq (lines : List String) :
    (normalize_unstructured lines).1 = lines.filterMap parseLine ∧
    (normalize_unstructured lines).2 =
      (lines.filter fun l => (parseLine l).isNone).length := by
  induction lines with
  | nil => exact ⟨rfl, rfl⟩
  | cons l rest ih =>
    cases hp : parseLine l <;>
      simp [normalize_unstructured, List.filterMap_cons, List.filter_cons, hp,
        ih.1, ih.2]

/-! ## Claim theorems -/

/-- Claim C1, counterexample: the Summary Builder's non-empty contract fails
on a one-row dataset whose event type contains the sentinel text — the code
emits the all-zero `No events found` report instead of `total_events = 1`
with status `Events found and processed`. -/
theorem summary_builder_contract_cex :
    ¬ ((process_audit_logs_records [rowSentinel] "2026-10-12").total_events = 1 ∧
       (process_audit_logs_records [rowSentinel] "2026-10-12").status =
         "Events found and processed") := by decide

/-- Claim C1 (amended): on the empty dataset the builder emits the all-zero
summary with the `No events found` status; on every non-empty dataset —
except a singleton whose row contains the sentinel text `No events found` in
some column — it emits `total_events` equal to the number of rows, each
category count taken from the classifier, and the `Events found and
processed` status. -/
theorem summary_builder_contract (df : List Row) (today : String) :
    process_audit_logs_records [] today = noEventsSummary today ∧
    ((2 ≤ df.length ∨ ∃ r, df = [r] ∧ rowContainsNoEvents r = false) →
      process_audit_logs_records df today =
        ⟨today, df.length,
          classify_count .FailedLogin df,
          classify_count .UnauthorizedAccess df,
          classify_count .SuspiciousActivity df,
          "Events found and processed"⟩) :=
  ⟨process_empty today, fun h => process_nonempty df today h⟩

/-- Witness for Claim C1's amended theorem at a concrete two-row dataset. -/
theorem summary_builder_contract_witness :
    process_audit_logs_records [rowLoginFailure, rowUnauthorizedDelete] "2026-10-12" =
      ⟨"2026-10-12", 2,
        classify_count .FailedLogin [rowLoginFailure, rowUnauthorizedDelete],
        classify_count .UnauthorizedAccess [rowLoginFailure, rowUnauthorizedDelete],
        classify_count .SuspiciousActivity [rowLoginFailure, rowUnauthorizedDelete],
        "Events found and processed"⟩ :=
  (summary_builder_contract [rowLoginFailure, rowUnauthorizedDelete] "2026-10-12").2
    (Or.inl (by decide))

/-- Claim C2: classification tags are independent, case-insensitive substring
predicates — inserting a row whose event type is
`audit.space.UnauthorizedDelete` into any batch increments both the
`unauthorized_access` and the `suspicious_activities` count by one. -/
theorem unauthorized_delete_counts_both (l1 l2 : List Row) (r : Row)
    (h : r.type = "audit.space.UnauthorizedDelete") :
    classify_count .UnauthorizedAccess (l1 ++ r :: l2) =
      classify_count .UnauthorizedAccess (l1 ++ l2) + 1 ∧
    classify_count .SuspiciousActivity (l1 ++ r :: l2) =
      classify_count .SuspiciousActivity (l1 ++ l2) + 1 := by
  have hua : matchesTag .UnauthorizedAccess r = true := by
    show containsCI r.type "Unauthorized" = true
    rw [h]; decide
  have hsa : matchesTag .SuspiciousActivity r = true := by
    show (containsCI r.type "Delete" || containsCI r.type "Update" ||
      containsCI r.type "Create") = true
    rw [h]; decide
  constructor <;> rw [classify_count_insert] <;> simp [hua, hsa]

/-- Witness for Claim C2 at a concrete one-row batch. -/
theorem unauthorized_delete_counts_both_witness :
    rowUnauthorizedDelete.type = "audit.space.UnauthorizedDelete" ∧
    (classify_count .UnauthorizedAccess
        ([rowLoginFailure] ++ rowUnauthorizedDelete :: []) =
      classify_count .UnauthorizedAccess ([rowLoginFailure] ++ []) + 1 ∧
    classify_count .SuspiciousActivity
        ([rowLoginFailure] ++ rowUnauthorizedDelete :: []) =
      classify_count .SuspiciousActivity ([rowLoginFailure] ++ []) + 1) :=
  ⟨rfl, unauthorized_delete_counts_both [rowLoginFailure] [] rowUnauthorizedDelete rfl⟩

/-- Claim C3: in the delimited-text fallback, on every input containing
malformed (wrong-column-count) lines among well-formed ones the Normalizer
keeps exactly the parseable lines in order, counts each dropped line in the
diagnostic drop counter (at least one here), and returns normally — it never
aborts. -/
theorem unstructured_fallback_drops (lines : List String)
    (h : ∃ l ∈ lines, parseLine l = none) :
    (normalize_unstructured lines).1 = lines.filterMap parseLine ∧
    (normalize_unstructured lines).2 =
      (lines.filter fun l => (parseLine l).isNone).length ∧
    1 ≤ (normalize_unstructured lines).2 := by
  refine ⟨(normalize_unstructured_eq lines).1, (normalize_unstructured_eq lines).2, ?_⟩
  obtain ⟨l, hl, hpl⟩ := h
  rw [(normalize_unstructured_eq lines).2]
  have hmem : l ∈ lines.filter fun l => (parseLine l).isNone := by
    simp [List.mem_filter, hl, hpl]
  have := List.length_pos_of_mem hmem
  omega

/-- Witness for Claim C3: Scenario D — one malformed line among nine
well-formed ones yields exactly 9 normalized records and a drop count of 1. -/
theorem unstructured_fallback_drops_witness :
    (∃ l ∈ sampleLines, parseLine l = none) ∧
    ((normalize_unstructured sampleLines).1 = sampleLines.filterMap parseLine ∧
     (normalize_unstructured sampleLines).2 =
       (sampleLines.filter fun l => (parseLine l).isNone).length ∧
     1 ≤ (normalize_unstructured sampleLines).2) ∧
    (normalize_unstructured sampleLines).1.length = 9 ∧
    (normalize_unstructured sampleLines).2 = 1 :=
  ⟨by decide, unstructured_fallback_drops sampleLines (by decide),
    by decide, by decide⟩

/-- Claim C4: when the event source fails, the run aborts with the propagated
error; the only sink write made before the abort is the Excel `sep=,` header
line — no normalized dataset and no (partial) summary is ever emitted. -/
theorem source_error_aborts (msg today : String) :
    (main_run (.fail msg) today).1 = [SinkWrite.sepHeader] ∧
    (main_run (.fail msg) today).2 =
      .error ("Error in main execution: " ++
        ("Failed to fetch audit logs: " ++ msg)) ∧
    (∀ rs, SinkWrite.normalizedWrite rs ∉ (main_run (.fail msg) today).1) ∧
    (∀ s, SinkWrite.summaryWrite s ∉ (main_run (.fail msg) today).1) := by
  refine ⟨rfl, rfl, ?_, ?_⟩ <;> intro x <;> simp [main_run, get_audit_logs]

/-- Witness for Claim C4 at a concrete failing fetch. -/
theorem source_error_aborts_witness :
    (main_run (.fail "connection refused") "2026-10-12").1 =
      [SinkWrite.sepHeader] ∧
    (main_run (.fail "connection refused") "2026-10-12").2 =
      .error ("Error in main execution: " ++
        ("Failed to fetch audit logs: " ++ "connection refused")) ∧
    (∀ rs, SinkWrite.normalizedWrite rs ∉
      (main_run (.fail "connection refused") "2026-10-12").1) ∧
    (∀ s, SinkWrite.summaryWrite s ∉
      (main_run (.fail "connection refused") "2026-10-12").1) :=
  source_error_aborts "connection refused" "2026-10-12"

/-- Claim C5: normalizing a well-formed structured raw event never raises —
it yields a record (all of whose fields are total strings), and every absent
optional nested key (target name/type, actor name/type, space, organization)
resolves to the empty string. -/
theorem structured_normalization_safe (d : List (String × PyVal))
    (h : wfStructured (.dict d) = true) :
    ∃ r : Row, normalize_event (.dict d) = .ok r ∧
      (∀ td, dictLookup d "target" = some (.dict td) →
        (dictLookup td "name" = none → r.target_name = "") ∧
        (dictLookup td "type" = none → r.target_type = "")) ∧
      (∀ ad, dictLookup d "actor" = some (.dict ad) →
        (dictLookup ad "name" = none → r.actor_name = "") ∧
        (dictLookup ad "type" = none → r.actor_type = "")) ∧
      (dictLookup d "space" = none → r.space_name = "") ∧
      (dictLookup d "organization" = none → r.org_name = "") := by
  obtain ⟨ts, cs, td, ad, hty, hca, htgt, hact, heq⟩ := normalize_event_wf d h
  refine ⟨_, heq, ?_, ?_, ?_, ?_⟩
  · intro td' htd'
    rw [htgt] at htd'
    simp only [Option.some.injEq, PyVal.dict.injEq] at htd'
    subst htd'
    exact ⟨fun hn => by simp [hn, strOrEmpty], fun hn => by simp [hn, strOrEmpty]⟩
  · intro ad' had'
    rw [hact] at had'
    simp only [Option.some.injEq, PyVal.dict.injEq] at had'
    subst had'
    exact ⟨fun hn => by simp [hn, strOrEmpty], fun hn => by simp [hn, strOrEmpty]⟩
  · intro hs; simp [hs, optMappingName]
  · intro ho; simp [ho, optMappingName]

/-- Witness for Claim C5 at the sparse event (every optional key absent). -/
theorem structured_normalization_safe_witness :
    wfStructured (.dict eventSparseEntries) = true ∧
    (∃ r : Row, normalize_event (.dict eventSparseEntries) = .ok r ∧
      (∀ td, dictLookup eventSparseEntries "target" = some (.dict td) →
        (dictLookup td "name" = none → r.target_name = "") ∧
        (dictLookup td "type" = none → r.target_type = "")) ∧
      (∀ ad, dictLookup eventSparseEntries "actor" = some (.dict ad) →
        (dictLookup ad "name" = none → r.actor_name = "") ∧
        (dictLookup ad "type" = none → r.actor_type = "")) ∧
      (dictLookup eventSparseEntries "space" = none → r.space_name = "") ∧
      (dictLookup eventSparseEntries "organization" = none → r.org_name = "")) :=
  ⟨by decide, structured_normalization_safe eventSparseEntries (by decide)⟩

/-- Claim C6: the Normalizer emits exactly one normalized record per
structured raw event — no structured record is ever dropped. -/
theorem normalize_preserves_length (events : List PyVal)
    (h : ∀ e ∈ events, wfStructured e = true) :
    ∃ rs, normalize_events events = .ok rs ∧ rs.length = events.length :=
  normalize_events_length events h

/-- Witness for Claim C6 at a concrete two-event payload. -/
theorem normalize_preserves_length_witness :
    (∀ e ∈ [eventSparse, eventFull], wfStructured e = true) ∧
    (∃ rs, normalize_events [eventSparse, eventFull] = .ok rs ∧
      rs.length = ([eventSparse, eventFull] : List PyVal).length) :=
  ⟨by decide, normalize_preserves_length [eventSparse, eventFull] (by decide)⟩

/-- Claim C7: classifier counts are monotonic under record addition —
appending a record matching a rule increases that rule's count by exactly
one, and no rule's count ever decreases. -/
theorem classifier_monotonic (df : List Row) (r : Row) (t : Tag)
    (h : matchesTag t r = true) :
    classify_count t (df ++ [r]) = classify_count t df + 1 ∧
    ∀ u : Tag, classify_count u df ≤ classify_count u (df ++ [r]) := by
  constructor
  · rw [classify_count_append]
    simp [classify_count, h]
  · intro u
    rw [classify_count_append]
    omega

/-- Witness for Claim C7: appending a `LoginFailure` row to a one-row batch. -/
theorem classifier_monotonic_witness :
    matchesTag Tag.FailedLogin rowLoginFailure = true ∧
    (classify_count Tag.FailedLogin ([rowUnauthorizedDelete] ++ [rowLoginFailure]) =
      classify_count Tag.FailedLogin [rowUnauthorizedDelete] + 1 ∧
     ∀ u : Tag, classify_count u [rowUnauthorizedDelete] ≤
       classify_count u ([rowUnauthorizedDelete] ++ [rowLoginFailure])) :=
  ⟨by decide,
    classifier_monotonic [rowUnauthorizedDelete] rowLoginFailure Tag.FailedLogin
      (by decide)⟩

/-- Claim C8: the normalize→classify→build pipeline is deterministic — equal
fetched payloads and equal run dates give identical sink writes (normalized
records included) and an identical summary; moreover the classifier counts
have no ordering dependency, being invariant under permutation of the
records. -/
theorem pipeline_deterministic (o o' : FetchOutcome) (d d' : String)
    (h1 : o = o') (h2 : d = d') :
    main_run o d = main_run o' d' ∧
    ∀ (l1 l2 : List Row), l1.Perm l2 →
      ∀ t : Tag, classify_count t l1 = classify_count t l2 := by
  subst h1; subst h2
  exact ⟨rfl, fun l1 l2 hp t => classify_count_perm t hp⟩

/-- Witness for Claim C8 at a concrete payload and date. -/
theorem pipeline_deterministic_witness :
    main_run (.resources [eventFull]) "2026-10-12" =
      main_run (.resources [eventFull]) "2026-10-12" ∧
    ∀ (l1 l2 : List Row), l1.Perm l2 →
      ∀ t : Tag, classify_count t l1 = classify_count t l2 :=
  pipeline_deterministic (.resources [eventFull]) (.resources [eventFull])
    "2026-10-12" "2026-10-12" rfl rfl

/-- Claim C9: a non-empty dataset can take the empty branch — a dataset of
exactly one row, some string field of which contains `No events found`,
yields the all-zero summary with the no-events status instead of being
counted. -/
theorem sentinel_empty_branch (r : Row) (today : String)
    (h : rowContainsNoEvents r = true) :
    process_audit_logs_records [r] today = noEventsSummary today :=
  process_sentinel r today h

/-- Witness for Claim C9 at the sentinel row. -/
theorem sentinel_empty_branch_witness :
    rowContainsNoEvents rowSentinel = true ∧
    process_audit_logs_records [rowSentinel] "2026-10-12" =
      noEventsSummary "2026-10-12" :=
  ⟨by decide, sentinel_empty_branch rowSentinel "2026-10-12" (by decide)⟩

/-- Claim C10: a record matching two or more of the suspicious-activity
indicator substrings (`Delete`, `Update`, `Create`) still increases the
`suspicious_activities` count by exactly one — the count is the number of
matching records, not of substring matches. -/
theorem multi_indicator_counts_once (l1 l2 : List Row) (r : Row)
    (h : ((containsCI r.type "Delete" && containsCI r.type "Update") ||
          (containsCI r.type "Delete" && containsCI r.type "Create") ||
          (containsCI r.type "Update" && containsCI r.type "Create")) = true) :
    classify_count .SuspiciousActivity (l1 ++ r :: l2) =
      classify_count .SuspiciousActivity (l1 ++ l2) + 1 := by
  have hm : matchesTag .SuspiciousActivity r = true := by
    show (containsCI r.type "Delete" || containsCI r.type "Update" ||
      containsCI r.type "Create") = true
    simp only [Bool.or_eq_true, Bool.and_eq_true] at h ⊢
    tauto
  rw [classify_count_insert]
  simp [hm]

/-- Witness for Claim C10 at a row whose type contains both `Delete` and
`Create`. -/
theorem multi_indicator_counts_once_witness :
    ((containsCI rowDeleteCreate.type "Delete" &&
        containsCI rowDeleteCreate.type "Update") ||
     (containsCI rowDeleteCreate.type "Delete" &&
        containsCI rowDeleteCreate.type "Create") ||
     (containsCI rowDeleteCreate.type "Update" &&
        containsCI rowDeleteCreate.type "Create")) = true ∧
    classify_count .SuspiciousActivity
        ([rowLoginFailure] ++ rowDeleteCreate :: []) =
      classify_count .SuspiciousActivity ([rowLoginFailure] ++ []) + 1 :=
  ⟨by decide, multi_indicator_counts_once [rowLoginFailure] [] rowDeleteCreate
    (by decide)⟩
